import Mathlib

/-!
Verification development for the python-workshops assignment repository.

Each Python exercise file is shallowly embedded:
* `src/1_principles/02_solid/02_ocp/starter.py` — shapes and the area aggregator
  (`Shape`, `Circle`, `Square`, `Triangle`, `AreaCalculator.total_area`);
* `src/1_principles/02_solid/05_dip/starter.py` — database variants
  (`MySQLDatabase`, `PostgreSQLDatabase`, `UserService`);
* `src/2_creational/02_abstract_factory/starter.py` — the equipment factory
  selector (`get_equipment_factory`);
* `src/4_behavioral/02_strategy/starter.py` — workflow tasks, task processors
  and the `TaskManager` context.

Python numbers appearing here are small integers and decimal literals on which
the float computations of the source are exact, so they are modelled as `ℚ`.
Wall-clock reads (`time.time()`, `datetime.now()`) are modelled by explicit
`ℚ`-valued clock arguments, and raised exceptions by `Except String`.
-/

namespace Workshops

/-! ### OCP exercise: shapes and the area calculator -/

/-- A shape of the OCP exercise: `Circle(radius)`, `Square(side)` or
`Triangle(base, height)`, holding its construction parameters. -/
inductive Shape where
  | circle (radius : ℚ)
  | square (side : ℚ)
  | triangle (base height : ℚ)
deriving DecidableEq, Repr

/-- Embeds `calculate_area` of each concrete shape class: `3.14 * r ** 2`,
`side ** 2` and `(base * height) / 2` (the source uses `3.14` for pi). -/
def Shape.calculate_area : Shape → ℚ
  | .circle radius => 3.14 * radius ^ 2
  | .square side => side ^ 2
  | .triangle base height => (base * height) / 2

/-- Embeds `AreaCalculator.total_area`:
`sum([shape.calculate_area() for shape in shapes])`. -/
def AreaCalculator.total_area (shapes : List Shape) : ℚ :=
  (shapes.map Shape.calculate_area).sum

/-- Reference recursion: the arithmetic sum of the individual areas of the
elements of a list, written independently of `AreaCalculator.total_area`. -/
def sumOfAreas : List Shape → ℚ
  | [] => 0
  | s :: rest => s.calculate_area + sumOfAreas rest

/-! ### DIP exercise: database variants -/

/-- Embeds `MySQLDatabase.connect`: returns `'Connected to MySQL'`. -/
def MySQLDatabase.connect : String := "Connected to MySQL"

/-- Embeds `MySQLDatabase.save`: returns the f-string
`f'Saved {user_id}: {name} to MySQL'`. -/
def MySQLDatabase.save (user_id name : String) : String :=
  "Saved " ++ user_id ++ ": " ++ name ++ " to MySQL"

/-- Embeds `PostgreSQLDatabase.connect`: returns `'Connected to PostgreSQL'`. -/
def PostgreSQLDatabase.connect : String := "Connected to PostgreSQL"

/-- Embeds `PostgreSQLDatabase.save`: returns the f-string
`f'Saved {user_id}: {name} to PostgreSQL'`. -/
def PostgreSQLDatabase.save (user_id name : String) : String :=
  "Saved " ++ user_id ++ ": " ++ name ++ " to PostgreSQL"

/-! ### Abstract factory exercise: equipment factory selection -/

/-- The three concrete `EquipmentFactory` subclasses of the abstract-factory
exercise. `get_equipment_factory` instantiates one of these. -/
inductive EquipmentFactory where
  | warriorEquipmentFactory
  | mageEquipmentFactory
  | archerEquipmentFactory
deriving DecidableEq, Repr

/-- Embeds Python's `str.lower()` as used on the ASCII character-class
discriminators: each character is lowercased independently. -/
def strLower (s : String) : String := ⟨s.data.map Char.toLower⟩

/-- Embeds the dict `charclass_to_factory` of `get_equipment_factory`, mapping
each supported class name to the factory it instantiates. -/
def charclass_to_factory : List (String × EquipmentFactory) :=
  [("warrior", .warriorEquipmentFactory),
   ("mage", .mageEquipmentFactory),
   ("archer", .archerEquipmentFactory)]

/-- Embeds `get_equipment_factory(character_class)`: looks up
`character_class.lower()` in `charclass_to_factory`; when absent it raises
`ValueError(f"Unknown character class: {character_class}")`, otherwise it
returns a fresh instance of the matching factory class. -/
def get_equipment_factory (character_class : String) :
    Except String EquipmentFactory :=
  match charclass_to_factory.lookup (strLower character_class) with
  | none => .error ("Unknown character class: " ++ character_class)
  | some factory => .ok factory

/-! ### Strategy exercise: workflow tasks, processors and the task manager -/

/-- Embeds the `TaskPriority` enum. -/
inductive TaskPriority where
  | low
  | medium
  | high
  | urgent
deriving DecidableEq, Repr

/-- Embeds `WorkflowTask`: title, priority and description are set by the
constructor, `created_at` records `datetime.now()` at construction and
`completed_at` starts as `None`. Timestamps are modelled as rationals. -/
structure WorkflowTask where
  title : String
  priority : TaskPriority
  description : String
  created_at : ℚ
  completed_at : Option ℚ
deriving DecidableEq, Repr

/-- Embeds `WorkflowTask.__init__(title, priority, description)`: the clock
value observed by `datetime.now()` is passed explicitly; `completed_at` is
initialised to `None`. -/
def WorkflowTask.init (title : String) (priority : TaskPriority)
    (description : String) (now : ℚ) : WorkflowTask :=
  { title := title, priority := priority, description := description,
    created_at := now, completed_at := none }

/-- Embeds `WorkflowTask.mark_completed`: unconditionally stores the current
clock value (`datetime.now()`) in `completed_at`. -/
def WorkflowTask.mark_completed (task : WorkflowTask) (now : ℚ) : WorkflowTask :=
  { task with completed_at := some now }

/-- The three concrete `TaskProcessor` strategy classes. -/
inductive TaskProcessor where
  | urgentTaskProcessor
  | standardTaskProcessor
  | backgroundTaskProcessor
deriving DecidableEq, Repr

/-- Embeds the result dict returned by every `process_task`, with its four
keys `status`, `processing_time`, `strategy_used` and `validation_passed`. -/
structure ProcessResult where
  status : String
  processing_time : ℚ
  strategy_used : String
  validation_passed : Bool
deriving DecidableEq, Repr

/-- Embeds `process_task` of the three strategies. The two wall-clock reads
(`time.time()` at entry and `datetime.now()` inside `mark_completed`) are the
explicit arguments `start_time` and `now`; `time.sleep` only consumes time and
is invisible to the state. Each strategy computes its validation flag exactly
as the source does, marks the task completed, and returns the result dict
together with the task in its mutated state. -/
def TaskProcessor.process_task (p : TaskProcessor) (task : WorkflowTask)
    (start_time now : ℚ) : ProcessResult × WorkflowTask :=
  match p with
  | .urgentTaskProcessor =>
    let validation_passed :=
      if task.priority ≠ TaskPriority.urgent then false
      else if task.description = "" then false
      else true
    let task := task.mark_completed now
    let processing_time := now - start_time
    ({ status := "completed", processing_time := processing_time,
       strategy_used := "urgent", validation_passed := validation_passed },
     task)
  | .standardTaskProcessor =>
    let validation_passed := if task.title.length < 3 then false else true
    let task := task.mark_completed now
    let processing_time := now - start_time
    ({ status := "completed", processing_time := processing_time,
       strategy_used := "standard", validation_passed := validation_passed },
     task)
  | .backgroundTaskProcessor =>
    let validation_passed :=
      if task.priority = TaskPriority.urgent then false else true
    let task := task.mark_completed now
    let processing_time := now - start_time
    ({ status := "completed", processing_time := processing_time,
       strategy_used := "background", validation_passed := validation_passed },
     task)

/-- The `strategy_used` identity tag each concrete processor writes into its
result dict. -/
def TaskProcessor.tag : TaskProcessor → String
  | .urgentTaskProcessor => "urgent"
  | .standardTaskProcessor => "standard"
  | .backgroundTaskProcessor => "background"

/-- Embeds `TaskManager`: it stores the optional strategy passed to the
constructor (default `None`). -/
structure TaskManager where
  strategy : Option TaskProcessor
deriving DecidableEq, Repr

/-- Embeds `TaskManager()` called with the default argument: no strategy. -/
def TaskManager.init : TaskManager := { strategy := none }

/-- Embeds `TaskManager.set_strategy(strategy)`. -/
def TaskManager.set_strategy (manager : TaskManager) (p : TaskProcessor) :
    TaskManager :=
  { manager with strategy := some p }

/-- Embeds `TaskManager.execute_task(task)`: if no strategy is set (the stored
optional is `None`, which is falsy; a bound processor object is always truthy)
it raises `ValueError("No strategy set")`, otherwise it delegates to
`self.strategy.process_task(task)` and returns that result. -/
def TaskManager.execute_task (manager : TaskManager) (task : WorkflowTask)
    (start_time now : ℚ) : Except String (ProcessResult × WorkflowTask) :=
  match manager.strategy with
  | none => .error "No strategy set"
  | some p => .ok (p.process_task task start_time now)

/-- An operation a client can perform on a `WorkflowTask`: call
`mark_completed` directly, or have one of the processors process it. Clock
readings are carried by the operation. -/
inductive TaskOp where
  | markCompleted (now : ℚ)
  | process (p : TaskProcessor) (start_time now : ℚ)
deriving DecidableEq, Repr

/-- Applies one operation to a task, yielding the task's next state. -/
def applyTaskOp (task : WorkflowTask) : TaskOp → WorkflowTask
  | .markCompleted now => task.mark_completed now
  | .process p start_time now => (p.process_task task start_time now).2

/-- Runs a sequence of operations on a task from left to right. -/
def runTaskOps (task : WorkflowTask) (ops : List TaskOp) : WorkflowTask :=
  ops.foldl applyTaskOp task

/-! ### Claims -/

/-- C1: for every string `s` whose lowercased form is not one of `"warrior"`,
`"mage"`, `"archer"`, `get_equipment_factory s` fails with a `ValueError`
whose message is exactly `"Unknown character class: "` followed by the
original, non-normalized input `s` verbatim; for the three supported
discriminators it never fails. -/
theorem claim_c1_unknown_discriminator :
    (∀ s : String, strLower s ∉ ["warrior", "mage", "archer"] →
      get_equipment_factory s = .error ("Unknown character class: " ++ s)) ∧
    (∀ s : String, strLower s ∈ ["warrior", "mage", "archer"] →
      ∃ f, get_equipment_factory s = .ok f) := by
  constructor
  · intro s hs
    simp only [List.mem_cons, List.not_mem_nil, or_false, not_or] at hs
    obtain ⟨h1, h2, h3⟩ := hs
    unfold get_equipment_factory charclass_to_factory
    have e1 : (strLower s == "warrior") = false := beq_eq_false_iff_ne.mpr h1
    have e2 : (strLower s == "mage") = false := beq_eq_false_iff_ne.mpr h2
    have e3 : (strLower s == "archer") = false := beq_eq_false_iff_ne.mpr h3
    simp [List.lookup, e1, e2, e3]
  · intro s hs
    simp only [List.mem_cons, List.not_mem_nil, or_false] at hs
    unfold get_equipment_factory charclass_to_factory
    rcases hs with h | h | h <;> rw [h] <;> exact ⟨_, rfl⟩

/-- Witness for C1 at the concrete inputs `"invalid"` and `"WARRIOR"`. -/
theorem claim_c1_unknown_discriminator_witness :
    (strLower "invalid" ∉ ["warrior", "mage", "archer"] ∧
      get_equipment_factory "invalid" =
        .error "Unknown character class: invalid") ∧
    (strLower "WARRIOR" ∈ ["warrior", "mage", "archer"] ∧
      ∃ f, get_equipment_factory "WARRIOR" = .ok f) :=
  ⟨⟨by decide, claim_c1_unknown_discriminator.1 "invalid" (by decide)⟩,
   ⟨by decide, claim_c1_unknown_discriminator.2 "WARRIOR" (by decide)⟩⟩

/-- C2: two inputs that agree after lowercasing make `get_equipment_factory`
either both fail or both return the same concrete factory. -/
theorem claim_c2_case_insensitive_selection (s1 s2 : String)
    (h : strLower s1 = strLower s2) :
    (∃ e1 e2, get_equipment_factory s1 = .error e1 ∧
      get_equipment_factory s2 = .error e2) ∨
    (∃ f, get_equipment_factory s1 = .ok f ∧
      get_equipment_factory s2 = .ok f) := by
  unfold get_equipment_factory
  rw [h]
  cases charclass_to_factory.lookup (strLower s2) with
  | none => exact .inl ⟨_, _, rfl, rfl⟩
  | some f => exact .inr ⟨f, rfl, rfl⟩

/-- Witness for C2: `select("WARRIOR")` and `select("warrior")` yield the same
family. -/
theorem claim_c2_case_insensitive_selection_witness :
    strLower "WARRIOR" = strLower "warrior" ∧
    ((∃ e1 e2, get_equipment_factory "WARRIOR" = .error e1 ∧
        get_equipment_factory "warrior" = .error e2) ∨
      (∃ f, get_equipment_factory "WARRIOR" = .ok f ∧
        get_equipment_factory "warrior" = .ok f)) :=
  ⟨by decide, claim_c2_case_insensitive_selection "WARRIOR" "warrior" (by decide)⟩

/-- C3: `AreaCalculator.total_area` returns exactly the arithmetic sum of the
individual `calculate_area` results of its elements, and this sum is the same
for every permutation of the list. -/
theorem claim_c3_total_area_is_sum_and_perm_invariant :
    (∀ shapes : List Shape,
      AreaCalculator.total_area shapes = sumOfAreas shapes) ∧
    (∀ shapes shapes' : List Shape, shapes.Perm shapes' →
      AreaCalculator.total_area shapes = AreaCalculator.total_area shapes') := by
  constructor
  · intro shapes
    induction shapes with
    | nil => rfl
    | cons s rest ih =>
      simp only [AreaCalculator.total_area, List.map_cons, List.sum_cons,
        sumOfAreas] at *
      rw [ih]
  · intro shapes shapes' hp
    unfold AreaCalculator.total_area
    exact (hp.map Shape.calculate_area).sum_eq

/-- Witness for C3 at a concrete two-element permutation. -/
theorem claim_c3_total_area_is_sum_and_perm_invariant_witness :
    ([Shape.square 4, Shape.circle 5].Perm [Shape.circle 5, Shape.square 4]) ∧
    AreaCalculator.total_area [Shape.square 4, Shape.circle 5] =
      AreaCalculator.total_area [Shape.circle 5, Shape.square 4] :=
  ⟨List.Perm.swap _ _ _,
   claim_c3_total_area_is_sum_and_perm_invariant.2 _ _ (List.Perm.swap _ _ _)⟩

/-- C4: `execute_task` on a `TaskManager` constructed with the default `None`
strategy raises `ValueError("No strategy set")` and never silently no-ops;
after `set_strategy p` on any manager, `execute_task` succeeds with the result
of `p.process_task`, whose `strategy_used` field is `p`'s identity tag. -/
theorem claim_c4_no_strategy_then_rebind (task : WorkflowTask)
    (start_time now : ℚ) :
    TaskManager.init.execute_task task start_time now =
      .error "No strategy set" ∧
    ∀ (manager : TaskManager) (p : TaskProcessor),
      (manager.set_strategy p).execute_task task start_time now =
        .ok (p.process_task task start_time now) ∧
      (p.process_task task start_time now).1.strategy_used = p.tag := by
  refine ⟨rfl, fun manager p => ⟨rfl, ?_⟩⟩
  cases p <;> rfl

/-- C5 counterexample: calling `mark_completed` twice on the same task sets
its completion timestamp twice — first to `1`, then again to `2` — so the
timestamp is not set at most once. -/
theorem claim_c5_counterexample_mark_completed_twice :
    (runTaskOps (WorkflowTask.init "Fix" .low "d" 0)
      [.markCompleted 1]).completed_at = some 1 ∧
    (runTaskOps (WorkflowTask.init "Fix" .low "d" 0)
      [.markCompleted 1, .markCompleted 2]).completed_at = some 2 ∧
    (runTaskOps (WorkflowTask.init "Fix" .low "d" 0)
        [.markCompleted 1]).completed_at ≠
      (runTaskOps (WorkflowTask.init "Fix" .low "d" 0)
        [.markCompleted 1, .markCompleted 2]).completed_at := by
  refine ⟨rfl, rfl, fun hc => ?_⟩
  have h12 : (some (1 : ℚ)) = some 2 := hc
  simp only [Option.some.injEq] at h12
  norm_num at h12

/-- C5 amended: a task's completion timestamp never goes back from set to
unset — once `completed_at` holds a value, every further operation (direct
`mark_completed` calls or processing by any processor) leaves it set — but
each such operation overwrites it with the current clock value, so it can be
set more than once. -/
theorem claim_c5_amended_completed_stays_set (task : WorkflowTask) (x : ℚ)
    (h : task.completed_at = some x) (ops : List TaskOp) :
    ∃ y, (runTaskOps task ops).completed_at = some y := by
  induction ops generalizing task x with
  | nil => exact ⟨x, h⟩
  | cons op rest ih =>
    cases op with
    | markCompleted now => exact ih (task.mark_completed now) now rfl
    | process p st now =>
      exact ih ((p.process_task task st now).2) now (by cases p <;> rfl)

/-- Witness for the amended C5 at a concrete completed task and operation
sequence. -/
theorem claim_c5_amended_completed_stays_set_witness :
    ((WorkflowTask.init "t" .low "d" 0).mark_completed 1).completed_at =
      some 1 ∧
    ∃ y, (runTaskOps ((WorkflowTask.init "t" .low "d" 0).mark_completed 1)
      [.process .standardTaskProcessor 2 3]).completed_at = some y :=
  ⟨rfl, claim_c5_amended_completed_stays_set _ 1 rfl _⟩

/-- C6: every processor's `process_task` completes on every task: it returns
`status = "completed"` and marks the task completed (validation failure is
reported in `validation_passed`, never raised, and never blocks
completion). -/
theorem claim_c6_validation_never_blocks_completion (p : TaskProcessor)
    (task : WorkflowTask) (start_time now : ℚ) :
    (p.process_task task start_time now).1.status = "completed" ∧
    (p.process_task task start_time now).2.completed_at = some now := by
  cases p <;> exact ⟨rfl, rfl⟩

/-- C7: `UrgentTaskProcessor.process_task` reports `validation_passed = True`
exactly when the task's priority is `URGENT` and its description is
non-empty, and its status is always `"completed"`. -/
theorem claim_c7_urgent_validation_criterion (task : WorkflowTask)
    (start_time now : ℚ) :
    ((TaskProcessor.urgentTaskProcessor.process_task task
        start_time now).1.validation_passed = true ↔
      task.priority = .urgent ∧ task.description ≠ "") ∧
    (TaskProcessor.urgentTaskProcessor.process_task task
      start_time now).1.status = "completed" := by
  refine ⟨?_, rfl⟩
  by_cases h1 : task.priority = TaskPriority.urgent <;>
    by_cases h2 : task.description = "" <;>
      simp [TaskProcessor.process_task, h1, h2]

/-- C8: the concrete scenarios — `Circle(5)` has area `78.5`, `Square(4)` has
area `16`, `Triangle(3, 4)` has area `6.0`, and the total area of all three
is `100.5`. -/
theorem claim_c8_concrete_area_values :
    Shape.calculate_area (.circle 5) = 78.5 ∧
    Shape.calculate_area (.square 4) = 16 ∧
    Shape.calculate_area (.triangle 3 4) = 6 ∧
    AreaCalculator.total_area [.circle 5, .square 4, .triangle 3 4] = 100.5 := by
  refine ⟨?_, ?_, ?_, ?_⟩ <;>
    norm_num [AreaCalculator.total_area, Shape.calculate_area]

/-- C9: the database variants return exactly the documented confirmation
strings, interpolating key and value verbatim. -/
theorem claim_c9_database_confirmation_strings (key value : String) :
    MySQLDatabase.connect = "Connected to MySQL" ∧
    MySQLDatabase.save key value =
      "Saved " ++ key ++ ": " ++ value ++ " to MySQL" ∧
    PostgreSQLDatabase.connect = "Connected to PostgreSQL" ∧
    PostgreSQLDatabase.save key value =
      "Saved " ++ key ++ ": " ++ value ++ " to PostgreSQL" :=
  ⟨rfl, rfl, rfl, rfl⟩

/-- C10: `AreaCalculator.total_area` on the empty list of shapes returns `0`
without error. -/
theorem claim_c10_total_area_empty : AreaCalculator.total_area [] = 0 := rfl

end Workshops
